import Mathlib

/-!
Shallow embedding of the `my-mastra-agent` weather pipeline.

The embedding follows the TypeScript source:
* the Result algebra and error taxonomy of `src/utils/result.ts`;
* the weather tool `getWeather` / `getWeatherCondition` of
  `src/mastra/tools/index.ts` (external HTTP fetches become oracle
  parameters, so the pure control flow of the source is kept);
* the workflow's duplicate `getWeatherCondition` table of
  `src/mastra/workflows/index.ts`;
* the Express route handler for `GET /api/weather` and the LINE-bot
  helper `parseMessageForCity` of the server file.

Modelling conventions:
* JavaScript numbers carried through untouched by the code are modelled
  as `Int` (no arithmetic is ever performed on them in the embedded code);
* a JavaScript `Promise` is either fulfilled with a value or rejected
  with an opaque cause; `await` of an always-fulfilling promise is the
  identity on the fulfilled value;
* thrown exceptions are modelled with `Except String` (fallible code
  returns a value describing the throw instead of raising);
* JavaScript truthiness checks on strings/numbers (empty string and `0`
  are falsy) are made explicit at each use site.
-/

/-- Tagged union `Result<T, E>` from `src/utils/result.ts`: the `kind`
discriminant of the source becomes the constructor. -/
inductive Result (T : Type) (E : Type) where
  | ok (value : T)
  | err (error : E)
  deriving DecidableEq, Repr

/-- Constructor `ok(value)`. -/
def ok {T E : Type} (value : T) : Result T E := .ok value

/-- Constructor `err(error)`. -/
def err {T E : Type} (error : E) : Result T E := .err error

/-- Type guard `isOk`. -/
def isOk {T E : Type} : Result T E → Bool
  | .ok _ => true
  | .err _ => false

/-- Type guard `isErr`. -/
def isErr {T E : Type} : Result T E → Bool
  | .ok _ => false
  | .err _ => true

/-- `map(result, fn)`: applies `fn` iff the result is Ok; the Err branch
returns the input result unchanged. -/
def map {T U E : Type} (result : Result T E) (fn : T → U) : Result U E :=
  match result with
  | .ok value => .ok (fn value)
  | .err e => .err e

/-- `mapErr(result, fn)`: applies `fn` iff the result is Err. -/
def mapErr {T E F : Type} (result : Result T E) (fn : E → F) : Result T F :=
  match result with
  | .ok value => .ok value
  | .err e => .err (fn e)

/-- `andThen(result, fn)`: monadic bind, short-circuiting on Err. -/
def andThen {T U E : Type} (result : Result T E) (fn : T → Result U E) : Result U E :=
  match result with
  | .ok value => fn value
  | .err e => .err e

/-- A JavaScript promise with cause type `C`: settled either by
fulfillment with a value or by rejection with a cause. -/
inductive JSPromise (C : Type) (T : Type) where
  | fulfilled (value : T)
  | rejected (cause : C)
  deriving DecidableEq, Repr

/-- `andThenAsync(result, fn)`: the async variant; on Ok the returned
promise is `fn value` itself (so its settlement is adopted), on Err the
async function returns the Err result, i.e. a fulfilled promise. -/
def andThenAsync {T U E C : Type} (result : Result T E)
    (fn : T → JSPromise C (Result U E)) : JSPromise C (Result U E) :=
  match result with
  | .ok value => fn value
  | .err e => .fulfilled (.err e)

/-- `fromPromise(promise, mapError)`: `.then` wraps a fulfillment value
as Ok, `.catch` maps a rejection cause through `mapError` and wraps the
outcome as Err; both callbacks fulfill the returned promise. -/
def fromPromise {T E C : Type} (promise : JSPromise C T) (mapError : C → E) :
    JSPromise C (Result T E) :=
  match promise with
  | .fulfilled value => .fulfilled (.ok value)
  | .rejected cause => .fulfilled (.err (mapError cause))

/-- The value obtained by `await fromPromise(promise, mapError)`; well
defined because `fromPromise` always fulfills. -/
def fromPromiseAwaited {T E C : Type} (promise : JSPromise C T) (mapError : C → E) :
    Result T E :=
  match promise with
  | .fulfilled value => .ok value
  | .rejected cause => .err (mapError cause)

/-- `await` of `fromPromise` is exactly `fromPromiseAwaited`. -/
theorem fromPromise_eq_fulfilled {T E C : Type} (p : JSPromise C T) (m : C → E) :
    fromPromise p m = .fulfilled (fromPromiseAwaited p m) := by
  cases p <;> rfl

/-- `unwrapOr(result, default)`. -/
def unwrapOr {T E : Type} (result : Result T E) (defaultValue : T) : T :=
  match result with
  | .ok value => value
  | .err _ => defaultValue

/-- `unwrap(result)`: returns the Ok value, throws on Err.  The thrown
`Error` is modelled as the `Except.error` branch carrying the message the
source interpolates. -/
def unwrap {T E : Type} [ToString E] (result : Result T E) : Except String T :=
  match result with
  | .ok value => .ok value
  | .err e => .error ("Called unwrap on Err value: " ++ toString e)

/-- `unwrapErr(result)`: returns the Err value, throws on Ok. -/
def unwrapErr {T E : Type} (result : Result T E) : Except String E :=
  match result with
  | .ok _ => .error "Called unwrapErr on Ok value"
  | .err e => .ok e

/-- Opaque JavaScript value (rejection causes, diagnostic payloads);
the contract treats it as opaque, the model fixes a representation. -/
abbrev JSValue := String

/-- Error taxonomy `AppError` from `src/utils/result.ts`: the `kind`
string tag of each variant becomes the constructor. -/
inductive AppError where
  | validation (message : String) (field : Option String)
  | notFound (message : String) (resource : String) (id : Option String)
  | infrastructure (message : String) (cause : Option JSValue)
  | weatherAPI (message : String) (statusCode : Option Int)
  deriving DecidableEq, Repr

/-- Standalone `ValidationError` record (the server's validators and
`parseMessageForCity` use this narrower error type). -/
structure ValidationError where
  message : String
  field : Option String
  deriving DecidableEq, Repr

/-- `errors.validation(message, field?)`. -/
def errors.validation (message : String) (field : Option String) : ValidationError :=
  ⟨message, field⟩

/-- `errors.notFound(resource, id?)`; the message interpolation guards on
JavaScript truthiness of `id` (absent or empty string falls back to the
short message). -/
def errors.notFound (resource : String) (id : Option String) : AppError :=
  .notFound
    (match id with
     | some i =>
        if i.isEmpty then resource ++ " not found"
        else resource ++ " '" ++ i ++ "' not found"
     | none => resource ++ " not found")
    resource id

/-- `errors.infrastructure(message, cause?)`. -/
def errors.infrastructure (message : String) (cause : Option JSValue) : AppError :=
  .infrastructure message cause

/-- `errors.weatherAPI(message, statusCode?)`. -/
def errors.weatherAPI (message : String) (statusCode : Option Int) : AppError :=
  .weatherAPI message statusCode

/-- The weather tool's `getWeatherCondition` table
(`src/mastra/tools/index.ts`), as the association list the source
`Record<number, string>` literal writes down, in order. -/
def toolConditionTable : List (Int × String) :=
  [(0, "Clear sky"), (1, "Mainly clear"), (2, "Partly cloudy"), (3, "Overcast"),
   (45, "Foggy"), (48, "Depositing rime fog"), (51, "Light drizzle"),
   (53, "Moderate drizzle"), (55, "Dense drizzle"), (56, "Light freezing drizzle"),
   (57, "Dense freezing drizzle"), (61, "Slight rain"), (63, "Moderate rain"),
   (65, "Heavy rain"), (66, "Light freezing rain"), (67, "Heavy freezing rain"),
   (71, "Slight snow fall"), (73, "Moderate snow fall"), (75, "Heavy snow fall"),
   (77, "Snow grains"), (80, "Slight rain showers"), (81, "Moderate rain showers"),
   (82, "Violent rain showers"), (85, "Slight snow showers"),
   (86, "Heavy snow showers"), (95, "Thunderstorm"),
   (96, "Thunderstorm with slight hail"), (99, "Thunderstorm with heavy hail")]

/-- The tool's `getWeatherCondition(code)`: `conditions[code] || "Unknown"`.
The `||` falls back on any falsy lookup result, i.e. on a missing key or
an empty string (no table entry is empty, but the truthiness test is kept). -/
def getWeatherCondition (code : Int) : String :=
  match toolConditionTable.lookup code with
  | some s => if s.isEmpty then "Unknown" else s
  | none => "Unknown"

/-- The workflow's shorter `getWeatherCondition` table
(`src/mastra/workflows/index.ts`). -/
def workflowConditionTable : List (Int × String) :=
  [(0, "Clear sky"), (1, "Mainly clear"), (2, "Partly cloudy"), (3, "Overcast"),
   (45, "Foggy"), (48, "Depositing rime fog"), (51, "Light drizzle"),
   (53, "Moderate drizzle"), (55, "Dense drizzle"), (61, "Slight rain"),
   (63, "Moderate rain"), (65, "Heavy rain"), (71, "Slight snow fall"),
   (73, "Moderate snow fall"), (75, "Heavy snow fall"), (95, "Thunderstorm")]

/-- The workflow file's duplicate `getWeatherCondition(code)`. -/
def getWeatherConditionWorkflow (code : Int) : String :=
  match workflowConditionTable.lookup code with
  | some s => if s.isEmpty then "Unknown" else s
  | none => "Unknown"

/-- One geocoding candidate (`GeocodingResponse.results` element). -/
structure GeoCandidate where
  latitude : Int
  longitude : Int
  name : String
  deriving DecidableEq, Repr

/-- `GeocodingResponse`; a missing/undefined `results` array (the source
reads it with `results?.[0]`) is modelled as the empty list. -/
structure GeocodingResponse where
  results : List GeoCandidate
  deriving DecidableEq, Repr

/-- Field `current` of the tool's `WeatherResponse`. -/
structure CurrentWeather where
  time : String
  temperature_2m : Int
  apparent_temperature : Int
  relative_humidity_2m : Int
  wind_speed_10m : Int
  wind_gusts_10m : Int
  weather_code : Int
  deriving DecidableEq, Repr

/-- The tool's `WeatherResponse`. -/
structure WeatherResponse where
  current : CurrentWeather
  deriving DecidableEq, Repr

/-- The tool's output record `WeatherData`. -/
structure WeatherData where
  temperature : Int
  feelsLike : Int
  humidity : Int
  windSpeed : Int
  windGust : Int
  conditions : String
  location : String
  deriving DecidableEq, Repr

/-- The tool's `getWeather(location)` (`src/mastra/tools/index.ts`).
The two external `fetch(...).then(res => res.json())` calls are oracle
parameters: `geocodingFetch` stands for the geocoding request built from
the location string, `forecastFetch` for the forecast request built from
the chosen candidate's latitude and longitude.  The source's
`if (isErr(x)) return err(unwrapErr(x))` / later `unwrap(x)` pairs are
embedded as one match on the guarded result. -/
def getWeather (location : String)
    (geocodingFetch : String → JSPromise JSValue GeocodingResponse)
    (forecastFetch : Int → Int → JSPromise JSValue WeatherResponse) :
    Result WeatherData AppError :=
  let geocodingResult := fromPromiseAwaited (geocodingFetch location)
    (fun error => errors.infrastructure "Failed to fetch geocoding data" (some error))
  match geocodingResult with
  | .err e => .err e
  | .ok geocodingData =>
    match geocodingData.results with
    | [] => .err (errors.notFound "location" (some location))
    | first :: _ =>
      let weatherResult := fromPromiseAwaited (forecastFetch first.latitude first.longitude)
        (fun error => errors.infrastructure "Failed to fetch weather data" (some error))
      match weatherResult with
      | .err e => .err e
      | .ok data =>
        .ok ⟨data.current.temperature_2m, data.current.apparent_temperature,
             data.current.relative_humidity_2m, data.current.wind_speed_10m,
             data.current.wind_gusts_10m,
             getWeatherCondition data.current.weather_code, first.name⟩

/-- The server's `WeatherRequest` record. -/
structure WeatherRequest where
  city : String
  deriving DecidableEq, Repr

/-- `validateWeatherRequest(query)`: `query.city` is modelled as
`Option String` (absent or non-string values collapse to `none`); the
source's `!query.city` also rejects the empty string by truthiness. -/
def validateWeatherRequest (city : Option String) : Result WeatherRequest ValidationError :=
  match city with
  | none => .err (errors.validation "City parameter is required" (some "city"))
  | some c =>
    if c.isEmpty then .err (errors.validation "City parameter is required" (some "city"))
    else .ok ⟨c⟩

/-- The JSON body the `GET /api/weather` route emits, by branch: the
validation-error envelope `{error, field}`, the pipeline-error envelope
`{error, type}`, or the success payload. -/
inductive ApiResponseBody (P : Type) where
  | validationError (error : String) (field : Option String)
  | pipelineError (error : String) (kind : String)
  | payload (value : P)
  deriving DecidableEq, Repr

/-- The `kind` string of an `AppError` (the source's literal tags). -/
def AppError.kindString : AppError → String
  | .validation _ _ => "validation"
  | .notFound _ _ _ => "not-found"
  | .infrastructure _ _ => "infrastructure"
  | .weatherAPI _ _ => "weather-api"

/-- The `message` field of an `AppError`. -/
def AppError.messageString : AppError → String
  | .validation m _ => m
  | .notFound m _ _ => m
  | .infrastructure m _ => m
  | .weatherAPI m _ => m

/-- The `GET /api/weather` route handler, as status plus body.
`getWeatherData` (the agent-backed pipeline) is an oracle parameter.
The error branch computes
`error.kind === "weather-api" && error.statusCode ? error.statusCode : 500`
(JavaScript truthiness: a carried status code of `0` is falsy and falls
back to 500); the Ok branch answers with the default status 200. -/
def apiWeatherGet {P : Type} (queryCity : Option String)
    (getWeatherData : String → Result P AppError) : Int × ApiResponseBody P :=
  match validateWeatherRequest queryCity with
  | .err error => (400, .validationError error.message error.field)
  | .ok req =>
    match getWeatherData req.city with
    | .err error =>
      let status : Int :=
        match error with
        | .weatherAPI _ (some sc) => if sc = 0 then 500 else sc
        | _ => 500
      (status, .pipelineError error.messageString error.kindString)
    | .ok value => (200, .payload value)

/-- Boolean list 'starts with' on characters. -/
def charsStartWith : List Char → List Char → Bool
  | [], _ => true
  | _ :: _, [] => false
  | a :: as, b :: bs => a == b && charsStartWith as bs

/-- Boolean substring test on characters; `jsIncludes` below models
JavaScript `String.prototype.includes`. -/
def charsContain (sub : List Char) : List Char → Bool
  | [] => charsStartWith sub []
  | c :: rest => charsStartWith sub (c :: rest) || charsContain sub rest

/-- JavaScript `text.includes(sub)`. -/
def jsIncludes (text sub : String) : Bool :=
  charsContain sub.data text.data

/-- JavaScript `String.prototype.toLowerCase`, character-wise
(`Char.toLower` covers the ASCII letters the source's keywords and
patterns use; the Japanese characters are case-less). -/
def jsToLowerCase (s : String) : String :=
  .mk (s.data.map Char.toLower)

/-- Leading/trailing whitespace removal on characters. -/
def trimChars (l : List Char) : List Char :=
  ((l.dropWhile Char.isWhitespace).reverse.dropWhile Char.isWhitespace).reverse

/-- JavaScript `String.prototype.trim` (`Char.isWhitespace` covers the
space, tab, CR and LF characters; the rarer Unicode spaces JavaScript
also trims do not occur in the embedded rules). -/
def jsTrim (s : String) : String :=
  .mk (trimChars s.data)

/-- Capture of the lazy pattern `/(.+?)delim/` applied to `text`
(`.` modelled as matching any character): the shortest non-empty prefix
followed immediately by `delim`, if any.  `acc` holds the consumed
prefix. -/
def lazyCaptureBeforeAux (delim acc : List Char) : List Char → Option (List Char)
  | [] => none
  | c :: rest =>
    if charsStartWith delim rest then some (acc ++ [c])
    else lazyCaptureBeforeAux delim (acc ++ [c]) rest

/-- Capture of `/(.+?)delim/` on `text`. -/
def lazyCaptureBefore (delim text : List Char) : Option (List Char) :=
  lazyCaptureBeforeAux delim [] text

/-- Capture of the greedy pattern `/(.+)delim/` applied to `text`: the
longest non-empty prefix followed immediately by `delim`, if any. -/
def greedyCaptureBeforeAux (delim acc : List Char) : List Char → Option (List Char)
  | [] => none
  | c :: rest =>
    match greedyCaptureBeforeAux delim (acc ++ [c]) rest with
    | some r => some r
    | none => if charsStartWith delim rest then some (acc ++ [c]) else none

/-- Capture of `/(.+)delim/` on `text`. -/
def greedyCaptureBefore (delim text : List Char) : Option (List Char) :=
  greedyCaptureBeforeAux delim [] text

/-- Case-insensitive character comparison used by the `/i` regex flag. -/
def charsStartWithCI (sub text : List Char) : Bool :=
  charsStartWith (sub.map Char.toLower) (text.map Char.toLower)

/-- Capture of the pattern `/delim(.+)/i` applied to `text`: everything
after the first case-insensitive occurrence of `delim` that is followed
by at least one character. -/
def captureAfterCI (delim : List Char) : List Char → Option (List Char)
  | [] => none
  | c :: rest =>
    if charsStartWithCI delim (c :: rest) && !((c :: rest).drop delim.length).isEmpty then
      some ((c :: rest).drop delim.length)
    else captureAfterCI delim rest

/-- The `weatherKeywords` list of `parseMessageForCity`. -/
def weatherKeywords : List String :=
  ["天気", "weather", "forecast", "気温", "temperature"]

/-- `weatherKeywords.some(keyword => normalizedText.includes(keyword))`. -/
def hasWeatherKeyword (normalizedText : String) : Bool :=
  weatherKeywords.any (fun keyword => jsIncludes normalizedText keyword)

/-- The pattern loop of `parseMessageForCity`: the five regexes tried in
source order against the raw `text`, returning the first match's trimmed
first capture group.  The captures are non-empty by construction, so the
source's `match && match[1]` truthiness test is subsumed. -/
def extractCity (text : String) : Option String :=
  match lazyCaptureBefore "の天気".data text.data with
  | some cap => some (jsTrim (.mk cap))
  | none =>
  match captureAfterCI "weather in ".data text.data with
  | some cap => some (jsTrim (.mk cap))
  | none =>
  match captureAfterCI "forecast for ".data text.data with
  | some cap => some (jsTrim (.mk cap))
  | none =>
  match greedyCaptureBefore "の気温".data text.data with
  | some cap => some (jsTrim (.mk cap))
  | none =>
  match captureAfterCI "temperature in ".data text.data with
  | some cap => some (jsTrim (.mk cap))
  | none => none

/-- `parseMessageForCity(text)` from the server file: keyword check on
the lowercased, trimmed text; pattern extraction on the raw text; the
default-city branch for a bare keyword; otherwise a validation error. -/
def parseMessageForCity (text : String) : Result String ValidationError :=
  let normalizedText := jsTrim (jsToLowerCase text)
  if hasWeatherKeyword normalizedText then
    match extractCity text with
    | some city => .ok city
    | none =>
      if normalizedText = "天気" || normalizedText = "weather" then .ok "Tokyo"
      else .err (errors.validation
        "Could not understand the city name. Try '東京の天気' or 'weather in Tokyo'" none)
  else
    .err (errors.validation "Please include a weather-related keyword in your message" none)

/-- Helper: a lookup misses when no key of the association list equals
the probe. -/
theorem lookup_none_of_ne {β : Type} {l : List (Int × β)} {c : Int}
    (h : ∀ p ∈ l, p.1 ≠ c) : l.lookup c = none := by
  induction l with
  | nil => rfl
  | cons p t ih =>
    obtain ⟨k, v⟩ := p
    have hk : k ≠ c := h (k, v) (by simp)
    have hbeq : (c == k) = false := by simpa using (Ne.symm hk)
    simp only [List.lookup, hbeq]
    exact ih (fun q hq => h q (by simp [hq]))

/-- C1: `map(err(e), f) = err(e)` and `mapErr(ok(v), f) = ok(v)` with the
function never invoked on the non-matching variant (expressed in the pure
embedding by the outcome being independent of the function),
`andThen(err(e), f) = err(e)`, `andThenAsync(err(e), f)` resolves to
`err(e)`, and `err(e)` piped through three `andThen`s yields `err(e)`
with none of the three functions influencing the outcome. -/
theorem c1_result_algebra_short_circuits {T U V W E F C : Type} (e : E) (v : T)
    (f : T → U) (g : E → F) (h₁ : T → Result U E)
    (hA : T → JSPromise C (Result U E))
    (k₁ : T → Result U E) (k₂ : U → Result V E) (k₃ : V → Result W E) :
    map (err e) f = err e
  ∧ (∀ f' : T → U, map (err e) f' = map (err e) f)
  ∧ mapErr (ok v : Result T E) g = ok v
  ∧ (∀ g' : E → F, mapErr (ok v : Result T E) g' = mapErr (ok v) g)
  ∧ andThen (err e) h₁ = err e
  ∧ (∀ h' : T → Result U E, andThen (err e) h' = andThen (err e) h₁)
  ∧ andThenAsync (err e) hA = .fulfilled (err e)
  ∧ (∀ h' : T → JSPromise C (Result U E), andThenAsync (err e) h' = andThenAsync (err e) hA)
  ∧ andThen (andThen (andThen (err e : Result T E) k₁) k₂) k₃ = err e :=
  ⟨rfl, fun _ => rfl, rfl, fun _ => rfl, rfl, fun _ => rfl, rfl, fun _ => rfl, rfl⟩

/-- C2 counterexample: a pipeline failure of kind NotFound makes the
`GET /api/weather` handler answer 500, not the 404 the claim states. -/
theorem c2_counterexample :
    (apiWeatherGet (some "Tokyo")
      (fun _ => (.err (errors.notFound "location" (some "Tokyo")) : Result Unit AppError))).1 = 500
  ∧ (apiWeatherGet (some "Tokyo")
      (fun _ => (.err (errors.notFound "location" (some "Tokyo")) : Result Unit AppError))).1 ≠ 404 := by
  decide

/-- C2 (amended): the `GET /api/weather` handler answers 400 when request
validation fails; for a pipeline Err it honours only a weather-api error's
carried non-zero status code and answers 500 for everything else —
including NotFound and Infrastructure; on Ok it answers 200. -/
theorem c2_status_mapping {P : Type} (queryCity : Option String)
    (pipeline : String → Result P AppError) :
    (∀ ve, validateWeatherRequest queryCity = .err ve →
        (apiWeatherGet queryCity pipeline).1 = 400)
  ∧ (∀ c, validateWeatherRequest queryCity = .ok ⟨c⟩ →
      ((∀ p, pipeline c = .ok p → (apiWeatherGet queryCity pipeline).1 = 200)
     ∧ (∀ m fl, pipeline c = .err (.validation m fl) →
          (apiWeatherGet queryCity pipeline).1 = 500)
     ∧ (∀ m r i, pipeline c = .err (.notFound m r i) →
          (apiWeatherGet queryCity pipeline).1 = 500)
     ∧ (∀ m cs, pipeline c = .err (.infrastructure m cs) →
          (apiWeatherGet queryCity pipeline).1 = 500)
     ∧ (∀ m, pipeline c = .err (.weatherAPI m none) →
          (apiWeatherGet queryCity pipeline).1 = 500)
     ∧ (∀ m sc, pipeline c = .err (.weatherAPI m (some sc)) →
          (apiWeatherGet queryCity pipeline).1 = if sc = 0 then 500 else sc))) := by
  constructor
  · intro ve h
    simp [apiWeatherGet, h]
  · intro c h
    refine ⟨?_, ?_, ?_, ?_, ?_, ?_⟩ <;> intro m
    case _ =>
      intro hp
      simp [apiWeatherGet, h, hp]
    all_goals
      first
      | (intro hp; simp [apiWeatherGet, h, hp])
      | (intro x hp; simp [apiWeatherGet, h, hp])
      | (intro x y hp; simp [apiWeatherGet, h, hp])

/-- C2 witness: a concrete NotFound pipeline failure behind a valid query
is answered with status 500. -/
theorem c2_status_mapping_witness :
    (apiWeatherGet (some "Tokyo")
      (fun _ => (.err (errors.notFound "location" (some "Osaka")) : Result Unit AppError))).1 = 500 :=
  ((c2_status_mapping (some "Tokyo")
      (fun _ => (.err (errors.notFound "location" (some "Osaka")) : Result Unit AppError))).2
    "Tokyo" (by decide)).2.2.1 "location 'Osaka' not found" "location" (some "Osaka") (by decide)

/-- C3: when the geocoding lookup returns zero candidates, `getWeather`
returns the value `Err(NotFound)` built by `errors.notFound("location",
placeName)` — resource `"location"`, id the place name — rather than
throwing; when candidates exist, the first candidate's latitude,
longitude and name are used (the forecast fetch is keyed on them and the
output's location is its name) and the later candidates are ignored. -/
theorem c3_geocoding_first_match (location : String)
    (geocodingFetch : String → JSPromise JSValue GeocodingResponse)
    (forecastFetch : Int → Int → JSPromise JSValue WeatherResponse) :
    (geocodingFetch location = .fulfilled ⟨[]⟩ →
      getWeather location geocodingFetch forecastFetch =
        .err (errors.notFound "location" (some location)))
  ∧ (∀ (first : GeoCandidate) (rest : List GeoCandidate) (wx : WeatherResponse),
      geocodingFetch location = .fulfilled ⟨first :: rest⟩ →
      forecastFetch first.latitude first.longitude = .fulfilled wx →
      getWeather location geocodingFetch forecastFetch =
        .ok ⟨wx.current.temperature_2m, wx.current.apparent_temperature,
             wx.current.relative_humidity_2m, wx.current.wind_speed_10m,
             wx.current.wind_gusts_10m,
             getWeatherCondition wx.current.weather_code, first.name⟩) := by
  constructor
  · intro h
    simp [getWeather, h, fromPromiseAwaited]
  · intro first rest wx h₁ h₂
    simp [getWeather, h₁, h₂, fromPromiseAwaited]

/-- C3 witness: a concrete empty geocoding answer yields the NotFound
value, and a concrete two-candidate answer uses only the first. -/
theorem c3_geocoding_first_match_witness :
    getWeather "Atlantis" (fun _ => .fulfilled ⟨[]⟩)
        (fun _ _ => .fulfilled ⟨⟨"t", 0, 0, 0, 0, 0, 0⟩⟩) =
      .err (errors.notFound "location" (some "Atlantis"))
  ∧ getWeather "Tokyo" (fun _ => .fulfilled ⟨[⟨35, 139, "Tokyo"⟩, ⟨1, 2, "Other"⟩]⟩)
        (fun _ _ => .fulfilled ⟨⟨"t", 22, 21, 60, 5, 9, 1⟩⟩) =
      .ok ⟨22, 21, 60, 5, 9, getWeatherCondition 1, "Tokyo"⟩ :=
  ⟨(c3_geocoding_first_match "Atlantis" (fun _ => .fulfilled ⟨[]⟩)
      (fun _ _ => .fulfilled ⟨⟨"t", 0, 0, 0, 0, 0, 0⟩⟩)).1 rfl,
   (c3_geocoding_first_match "Tokyo"
      (fun _ => .fulfilled ⟨[⟨35, 139, "Tokyo"⟩, ⟨1, 2, "Other"⟩]⟩)
      (fun _ _ => .fulfilled ⟨⟨"t", 22, 21, 60, 5, 9, 1⟩⟩)).2
      ⟨35, 139, "Tokyo"⟩ [⟨1, 2, "Other"⟩] ⟨⟨"t", 22, 21, 60, 5, 9, 1⟩⟩ rfl rfl⟩

/-- C4: `fromPromise` resolves to `ok(v)` when the wrapped promise
fulfills with `v`, and to `err(mapError(c))` when it rejects (or the
wrapped operation throws, which settles the promise the same way) with
cause `c`. -/
theorem c4_fromPromise_bridges {T E C : Type} (v : T) (c : C) (mapError : C → E) :
    fromPromise (.fulfilled v) mapError = .fulfilled (ok v)
  ∧ fromPromise (.rejected c : JSPromise C T) mapError = .fulfilled (err (mapError c)) :=
  ⟨rfl, rfl⟩

/-- C5: `isOk(ok(v))` is true with `unwrap(ok(v)) = v`, `isErr(err(e))`
is true with `unwrapErr(err(e)) = e`, and the wrong extractor throws
(the `Except.error` branch carrying the thrown message) instead of
returning any default value. -/
theorem c5_extractors_behavior {T E : Type} [ToString E] (v : T) (e : E) :
    isOk (ok v : Result T E) = true
  ∧ unwrap (ok v : Result T E) = .ok v
  ∧ isErr (err e : Result T E) = true
  ∧ unwrapErr (err e : Result T E) = .ok e
  ∧ (∃ msg, unwrap (err e : Result T E) = .error msg)
  ∧ (∃ msg, unwrapErr (ok v : Result T E) = .error msg) :=
  ⟨rfl, rfl, rfl, rfl, ⟨_, rfl⟩, ⟨_, rfl⟩⟩

/-- C6: the weather-code decoder is a total `String`-valued function:
code 0 decodes to `"Clear sky"`, code 999 decodes to `"Unknown"`, and
every code missing from the fixed table decodes to `"Unknown"`. -/
theorem c6_condition_decoder_total :
    getWeatherCondition 0 = "Clear sky"
  ∧ getWeatherCondition 999 = "Unknown"
  ∧ (∀ code : Int, toolConditionTable.lookup code = none →
      getWeatherCondition code = "Unknown") := by
  refine ⟨by decide, by decide, ?_⟩
  intro code h
  simp [getWeatherCondition, h]

/-- C6 witness: 999 is absent from the table and decodes to Unknown. -/
theorem c6_condition_decoder_total_witness : getWeatherCondition 999 = "Unknown" :=
  c6_condition_decoder_total.2.2 999 (by decide)

/-- C7 counterexample: the input `"天気"` contains a weather keyword and
matches none of the city-extraction patterns, yet `parseMessageForCity`
returns `Ok("Tokyo")`, not a Validation error. -/
theorem c7_counterexample :
    parseMessageForCity "天気" = ok "Tokyo"
  ∧ extractCity "天気" = none
  ∧ isErr (parseMessageForCity "天気") = false := by
  decide

/-- C7 (amended): a message without a weather keyword yields the
keyword Validation error; a message with a keyword that matches no
pattern — and whose lowercased trimmed text is not exactly `"天気"` or
`"weather"`, which instead yield the default `Ok("Tokyo")` — yields the
city-name Validation error; and `"東京の天気"` yields `Ok("東京")`. -/
theorem c7_parse_message (text : String) :
    (hasWeatherKeyword (jsTrim (jsToLowerCase text)) = false →
      parseMessageForCity text =
        err (errors.validation "Please include a weather-related keyword in your message" none))
  ∧ (hasWeatherKeyword (jsTrim (jsToLowerCase text)) = true →
     extractCity text = none →
     jsTrim (jsToLowerCase text) ≠ "天気" →
     jsTrim (jsToLowerCase text) ≠ "weather" →
      parseMessageForCity text =
        err (errors.validation
          "Could not understand the city name. Try '東京の天気' or 'weather in Tokyo'" none))
  ∧ parseMessageForCity "東京の天気" = ok "東京" := by
  refine ⟨?_, ?_, by decide⟩
  · intro h
    simp [parseMessageForCity, h, err]
  · intro h₁ h₂ h₃ h₄
    simp [parseMessageForCity, h₁, h₂, h₃, h₄, err]

/-- C7 witness: `"hello"` has no weather keyword; `"天気 in space"` has a
keyword, no pattern match and no default, hence the city-name error. -/
theorem c7_parse_message_witness :
    parseMessageForCity "hello" =
      err (errors.validation "Please include a weather-related keyword in your message" none)
  ∧ parseMessageForCity "天気 in space" =
      err (errors.validation
        "Could not understand the city name. Try '東京の天気' or 'weather in Tokyo'" none) :=
  ⟨(c7_parse_message "hello").1 (by decide),
   (c7_parse_message "天気 in space").2.1 (by decide) (by decide) (by decide) (by decide)⟩

/-- The twelve weather codes present only in the tool's extended table,
not in the workflow's shorter one. -/
def extendedOnlyCodes : List Int :=
  [56, 57, 66, 67, 77, 80, 81, 82, 85, 86, 96, 99]

/-- C8 counterexample: code 56 decodes to `"Light freezing drizzle"` in
the tool but to `"Unknown"` in the workflow, so the two duplicated
decoders do not behave as one table. -/
theorem c8_counterexample :
    getWeatherCondition 56 = "Light freezing drizzle"
  ∧ getWeatherConditionWorkflow 56 = "Unknown"
  ∧ getWeatherCondition 56 ≠ getWeatherConditionWorkflow 56 := by
  decide

/-- C8 (amended): the two decoders agree on every integer code except
exactly the twelve codes present only in the tool's extended table,
where the tool returns the specific label and the workflow returns
`"Unknown"`. -/
theorem c8_tables_agree_outside_extended (code : Int) :
    (code ∈ extendedOnlyCodes →
      getWeatherCondition code ≠ getWeatherConditionWorkflow code)
  ∧ (code ∉ extendedOnlyCodes →
      getWeatherCondition code = getWeatherConditionWorkflow code) := by
  constructor
  · intro h
    simp only [extendedOnlyCodes] at h
    fin_cases h <;> decide
  · intro h
    by_cases h₀ : 0 ≤ code ∧ code ≤ 99
    · obtain ⟨ha, hb⟩ := h₀
      interval_cases code <;>
        first
        | decide
        | (exact absurd (by decide) h)
    · rw [not_and_or] at h₀
      have hrange : code < 0 ∨ 99 < code := by omega
      have htool : toolConditionTable.lookup code = none := by
        apply lookup_none_of_ne
        intro p hp
        simp only [toolConditionTable] at hp
        fin_cases hp <;> (simp only; omega)
      have hwf : workflowConditionTable.lookup code = none := by
        apply lookup_none_of_ne
        intro p hp
        simp only [workflowConditionTable] at hp
        fin_cases hp <;> (simp only; omega)
      simp [getWeatherCondition, getWeatherConditionWorkflow, htool, hwf]

/-- C8 witness: the decoders differ on 56 and agree on 100. -/
theorem c8_tables_agree_outside_extended_witness :
    getWeatherCondition 56 ≠ getWeatherConditionWorkflow 56
  ∧ getWeatherCondition 100 = getWeatherConditionWorkflow 100 :=
  ⟨(c8_tables_agree_outside_extended 56).1 (by decide),
   (c8_tables_agree_outside_extended 100).2 (by decide)⟩

/-- C9: for every promise and (total) error-mapping function, the promise
returned by `fromPromise` fulfills with a `Result`; it never rejects,
even when the wrapped promise rejects. -/
theorem c9_fromPromise_always_fulfills {T E C : Type}
    (p : JSPromise C T) (mapError : C → E) :
    ∃ r : Result T E, fromPromise p mapError = .fulfilled r :=
  ⟨fromPromiseAwaited p mapError, fromPromise_eq_fulfilled p mapError⟩

/-- C10: messages whose lowercased, trimmed text is exactly `"天気"` or
exactly `"weather"` get the hard-coded default city: `Ok("Tokyo")`. -/
theorem c10_default_city :
    parseMessageForCity "天気" = ok "Tokyo"
  ∧ parseMessageForCity "weather" = ok "Tokyo"
  ∧ parseMessageForCity "  WEATHER  " = ok "Tokyo"
  ∧ jsTrim (jsToLowerCase "  WEATHER  ") = "weather" := by
  decide
